import Mathlib

/-!
Verification development for the WxFixBoot disk/OS discovery and repair core.

The Python source (Tools/BackendTools/helpers.py, Tools/BackendTools/essentials.py,
Tests/Tools/StartupTools/MainStartupToolsTestFunctions.py) is shallowly embedded:

* the process-wide tables `DISK_INFO` / `OS_INFO` become association lists
  keyed by device path resp. OS display name (Python dicts preserve insertion
  order and key assignment overwrites in place, which `dictInsert` mirrors);
* external collaborators (`CoreTools`, `CoreStartupTools`, dialogs) are the
  capability interface of the spec, passed as function-valued fields of an
  environment record; exit codes are `Nat` compared against `0` exactly as the
  call sites do;
* a fallible dictionary access (Python `KeyError`) is modelled with `Option`.
-/

set_option maxHeartbeats 1000000

namespace WxFixBoot

/-- One row of the `DISK_INFO` inventory table.  Field names follow the Python
keys: `Type`, `FileSystem`, `UUID`, `Product`, `Aliases`.  An entry with no
`"Aliases"` key is represented by the empty alias list (the source only ever
asks whether a given path is a member of the alias collection, and membership
in an absent collection is false). -/
structure DiskEntry where
  type : String
  fileSystem : String
  uuid : String
  product : String
  aliases : List String
deriving DecidableEq

/-- One value of the `OS_INFO` table, with the exact fields `get_oss` stores:
`Name`, `IsCurrentOS`, `Arch`, `Partition`, `PackageManager`, `RawFSTabInfo`,
`EFIPartition`, `BootPartition`. -/
structure OSRecord where
  name : String
  isCurrentOS : Bool
  arch : String
  partition : String
  packageManager : String
  rawFSTabInfo : List String
  efiPartition : String
  bootPartition : String
deriving DecidableEq

/-- The slice of the global `SYSTEM_INFO` dictionary that the embedded
functions read or write: `IsLiveDisk` and `CurrentOS`. -/
structure SystemInfo where
  isLiveDisk : Bool
  currentOS : Option OSRecord
deriving DecidableEq

/-- Lookup in an association list, as Python `d[k]` but returning `none`
instead of raising `KeyError`. -/
def lookupDisk (disks : List (String × DiskEntry)) (k : String) : Option DiskEntry :=
  match disks with
  | [] => none
  | p :: rest => if p.1 = k then some p.2 else lookupDisk rest k

/-- Python dictionary assignment `d[k] = v`: replaces the value at an existing
key in place, otherwise appends the pair (insertion order preserved). -/
def dictInsert {α : Type} : List (String × α) → String → α → List (String × α)
  | [], k, v => [(k, v)]
  | p :: rest, k, v => if p.1 = k then (k, v) :: rest else p :: dictInsert rest k v

/-- Lexicographic order on character lists by code point, the order Python's
`sorted` uses on the device-path keys. -/
def charListLt : List Char → List Char → Bool
  | [], [] => false
  | [], _ :: _ => true
  | _ :: _, [] => false
  | c :: cs, d :: ds =>
    if c.val.toNat < d.val.toNat then true
    else if d.val.toNat < c.val.toNat then false
    else charListLt cs ds

/-- Insert one keyed pair into an already key-sorted list. -/
def insertByKey {α : Type} (x : String × α) : List (String × α) → List (String × α)
  | [] => [x]
  | y :: ys => if charListLt x.1.data y.1.data then x :: y :: ys else y :: insertByKey x ys

/-- `sorted(DISK_INFO.keys())` together with the per-key lookups of the loops:
the inventory rows listed in ascending key order. -/
def sortEntries {α : Type} : List (String × α) → List (String × α)
  | [] => []
  | x :: xs => insertByKey x (sortEntries xs)

theorem insertByKey_perm {α : Type} (x : String × α) (l : List (String × α)) :
    List.Perm (insertByKey x l) (x :: l) := by
  induction l with
  | nil => simp [insertByKey]
  | cons y ys ih =>
    simp only [insertByKey]
    split
    · exact List.Perm.refl _
    · exact List.Perm.trans (List.Perm.cons y ih) (List.Perm.swap x y ys)

theorem sortEntries_perm {α : Type} (l : List (String × α)) :
    List.Perm (sortEntries l) l := by
  induction l with
  | nil => exact List.Perm.refl _
  | cons x xs ih =>
    exact List.Perm.trans (insertByKey_perm x (sortEntries xs)) (List.Perm.cons x ih)

theorem mem_sortEntries {α : Type} (x : String × α) (l : List (String × α)) :
    x ∈ sortEntries l ↔ x ∈ l :=
  (sortEntries_perm l).mem_iff

theorem mem_dictInsert {α : Type} (m : List (String × α)) (k : String) (v : α)
    (n : String) (r : α) (h : (n, r) ∈ dictInsert m k v) :
    (n, r) = (k, v) ∨ (n, r) ∈ m := by
  induction m with
  | nil => simpa [dictInsert] using h
  | cons p rest ih =>
    simp only [dictInsert] at h
    split at h
    · rcases List.mem_cons.mp h with h1 | h1
      · exact Or.inl h1
      · exact Or.inr (List.mem_cons_of_mem p h1)
    · rcases List.mem_cons.mp h with h1 | h1
      · exact Or.inr (h1 ▸ List.mem_cons_self p rest)
      · rcases ih h1 with h2 | h2
        · exact Or.inl h2
        · exact Or.inr (List.mem_cons_of_mem p h2)

/-! ## The partition-to-OS matcher (helpers.py, `partition_matches_os`)

The Python function reads `OS_INFO[_os]`; the embedding receives that record
directly.  Each `elif` arm of the source evaluates, for one role field `f`
(root, then boot, then EFI), the condition
`f != "Unknown" and partition in (f, DISK_INFO[f]["UUID"])`; building the
tuple forces the `DISK_INFO[f]` access, so a non-`Unknown` role naming an
absent inventory key raises `KeyError`, modelled as `none`. -/

/-- Condition value of one role arm of `partition_matches_os`;
`none` models the `KeyError` on `DISK_INFO[f]` for a dangling role key. -/
def role_cond (disks : List (String × DiskEntry)) (p f : String) : Option Bool :=
  if f = "Unknown" then some false
  else
    match lookupDisk disks f with
    | none => none
    | some d => some (decide (p = f ∨ p = d.uuid))

/-- `partition_matches_os(partition, _os)` from helpers.py lines 44-87:
`"Unknown"` input returns false at once; otherwise the root, boot and EFI
role arms are tried in order and the first arm whose condition is true
returns true; if none fires the result is false. -/
def partition_matches_os (disks : List (String × DiskEntry)) (partition : String)
    (os : OSRecord) : Option Bool :=
  if partition = "Unknown" then some false
  else
    match role_cond disks partition os.partition with
    | none => none
    | some c1 =>
      if c1 then some true
      else
        match role_cond disks partition os.bootPartition with
        | none => none
        | some c2 =>
          if c2 then some true
          else
            match role_cond disks partition os.efiPartition with
            | none => none
            | some c3 => if c3 then some true else some false

/-- Refinement-side definition following the spec's words for one role of the
matcher: a role field valued `Unknown` is skipped entirely, and otherwise the
input matches if it equals the field's device path or that entry's inventory
UUID. -/
def spec_role_match (disks : List (String × DiskEntry)) (p f : String) : Bool :=
  if f = "Unknown" then false
  else
    match lookupDisk disks f with
    | none => false
    | some d => decide (p = f) || decide (p = d.uuid)

theorem role_cond_eq (disks : List (String × DiskEntry)) (p f : String)
    (h : f = "Unknown" ∨ (lookupDisk disks f).isSome) :
    role_cond disks p f = some (spec_role_match disks p f) := by
  unfold role_cond spec_role_match
  rcases h with h | h
  · simp [h]
  · by_cases hf : f = "Unknown"
    · simp [hf]
    · simp only [if_neg hf]
      cases hl : lookupDisk disks f with
      | none => rw [hl] at h; simp at h
      | some d =>
        by_cases h1 : p = f <;> by_cases h2 : p = d.uuid <;> simp [h1, h2]

theorem partition_matches_os_spec (disks : List (String × DiskEntry)) (p : String)
    (os : OSRecord)
    (h1 : os.partition = "Unknown" ∨ (lookupDisk disks os.partition).isSome)
    (h2 : os.bootPartition = "Unknown" ∨ (lookupDisk disks os.bootPartition).isSome)
    (h3 : os.efiPartition = "Unknown" ∨ (lookupDisk disks os.efiPartition).isSome) :
    partition_matches_os disks p os =
      some ((!decide (p = "Unknown")) &&
        (spec_role_match disks p os.partition || spec_role_match disks p os.bootPartition ||
          spec_role_match disks p os.efiPartition)) := by
  unfold partition_matches_os
  rw [role_cond_eq disks p os.partition h1, role_cond_eq disks p os.bootPartition h2,
      role_cond_eq disks p os.efiPartition h3]
  by_cases hp : p = "Unknown"
  · simp [hp]
  · cases hs1 : spec_role_match disks p os.partition <;>
      cases hs2 : spec_role_match disks p os.bootPartition <;>
        cases hs3 : spec_role_match disks p os.efiPartition <;> simp [hp]

/-- C1: for every partition identifier `p` and OS record whose non-`Unknown`
role fields are inventory keys, `partition_matches_os` does not fail, and it
returns true exactly when `p` is not `"Unknown"` and `p` equals the device
path or the inventory UUID of one of the record's root, boot or EFI role
fields whose value is not `"Unknown"` (so `"Unknown"` input never matches,
and a record whose three role fields are all `"Unknown"` matches nothing). -/
theorem C1_partition_matcher (disks : List (String × DiskEntry)) (p : String)
    (os : OSRecord)
    (h1 : os.partition = "Unknown" ∨ (lookupDisk disks os.partition).isSome)
    (h2 : os.bootPartition = "Unknown" ∨ (lookupDisk disks os.bootPartition).isSome)
    (h3 : os.efiPartition = "Unknown" ∨ (lookupDisk disks os.efiPartition).isSome) :
    partition_matches_os disks p os ≠ none ∧
      (partition_matches_os disks p os = some true ↔
        (p ≠ "Unknown" ∧
          (spec_role_match disks p os.partition = true ∨
            spec_role_match disks p os.bootPartition = true ∨
            spec_role_match disks p os.efiPartition = true))) := by
  rw [partition_matches_os_spec disks p os h1 h2 h3]
  constructor
  · simp
  · by_cases hp : p = "Unknown"
    · simp [hp]
    · cases hs1 : spec_role_match disks p os.partition <;>
        cases hs2 : spec_role_match disks p os.bootPartition <;>
          cases hs3 : spec_role_match disks p os.efiPartition <;> simp [hp]

/-- Inventory used by the concrete matcher check. -/
def c1disks : List (String × DiskEntry) :=
  [("/dev/sda1", ⟨"Partition", "ext4", "1234-ABCD", "", []⟩)]

/-- OS record used by the concrete matcher check: root role known, boot and
EFI roles `Unknown`. -/
def c1os : OSRecord :=
  ⟨"Ubuntu", true, "x86_64", "/dev/sda1", "apt-get", [], "Unknown", "Unknown"⟩

/-- Witness for C1: matching the root partition's UUID against a record whose
boot and EFI roles are `Unknown` succeeds. -/
theorem C1_partition_matcher_witness :
    partition_matches_os c1disks "1234-ABCD" c1os ≠ none ∧
      partition_matches_os c1disks "1234-ABCD" c1os = some true := by
  have h := C1_partition_matcher c1disks "1234-ABCD" c1os (Or.inr (by decide))
    (Or.inl (by decide)) (Or.inl (by decide))
  exact ⟨h.1, h.2.mpr ⟨by decide, Or.inl (by decide)⟩⟩

/-! ## Filesystem-check command selection (essentials.py, `filesystem_check`)

The per-disk body of the check loop (lines 145-243) first sets
`run_badblocks = False`, then chooses the checker command from the check type
and the disk's filesystem, setting `run_badblocks = True` only in the
non-`"Quick"` branches listed below; afterwards it runs `exec_cmds` when
non-empty and `badblocks -sv <disk>` when `run_badblocks` is set. -/

/-- Outcome of the command-selection part of one `filesystem_check` loop
iteration: the checker command line (empty = unsupported filesystem, nothing
runs) and the `run_badblocks` flag. -/
structure FSCheckPlan where
  exec_cmds : String
  run_badblocks : Bool
deriving DecidableEq

/-- Command selection of `filesystem_check` for one disk, from the check type
`_type` and the disk's `FileSystem`. -/
def filesystem_check_plan (t fs disk : String) : FSCheckPlan :=
  if t = "Quick" then
    if fs = "jfs" then ⟨"fsck.jfs -vf " ++ disk, false⟩
    else if fs = "minix" then ⟨"fsck.minix -avf " ++ disk, false⟩
    else if fs = "reiserfs" then ⟨"fsck.reiserfs -apf " ++ disk, false⟩
    else if fs = "xfs" then ⟨"xfs_repair -Pvd " ++ disk, false⟩
    else if fs = "hfs" ∨ fs = "hfsplus" then ⟨"fsck.hfsplus -fy " ++ disk, false⟩
    else if fs = "vfat" then ⟨"fsck.vfat -yv " ++ disk, false⟩
    else if fs = "ext2" ∨ fs = "ext3" ∨ fs = "ext4" ∨ fs = "ext4dev" then
      ⟨"fsck." ++ fs ++ " -yvf " ++ disk, false⟩
    else ⟨"", false⟩
  else
    if fs = "jfs" then ⟨"fsck.jfs -vf " ++ disk, true⟩
    else if fs = "minix" then ⟨"fsck.minix -avf " ++ disk, true⟩
    else if fs = "reiserfs" then ⟨"fsck.reiserfs -apf " ++ disk, true⟩
    else if fs = "xfs" then ⟨"xfs_repair -Pvd " ++ disk, true⟩
    else if fs = "hfs" ∨ fs = "hfsplus" then ⟨"fsck.hfsplus -fy " ++ disk, true⟩
    else if fs = "vfat" then ⟨"fsck.vfat -yvt " ++ disk, false⟩
    else if fs = "ext2" ∨ fs = "ext3" ∨ fs = "ext4" ∨ fs = "ext4dev" then
      ⟨"fsck." ++ fs ++ " -yvcf " ++ disk, false⟩
    else ⟨"", false⟩

/-- C9: in `"Quick"` mode `run_badblocks` stays false for every filesystem, so
badblocks never runs; in any non-`"Quick"` mode it is set exactly for the
jfs, minix, reiserfs, xfs, hfs and hfsplus filesystems. -/
theorem C9_quick_no_badblocks (t fs disk : String) :
    (filesystem_check_plan "Quick" fs disk).run_badblocks = false ∧
      ((filesystem_check_plan t fs disk).run_badblocks = true ↔
        (t ≠ "Quick" ∧
          (fs = "jfs" ∨ fs = "minix" ∨ fs = "reiserfs" ∨ fs = "xfs" ∨
            fs = "hfs" ∨ fs = "hfsplus"))) := by
  constructor
  · unfold filesystem_check_plan
    simp only [if_pos rfl]
    split_ifs <;> rfl
  · unfold filesystem_check_plan
    split_ifs <;> simp_all

/-! ## The safety gate (helpers.py, `find_missing_fsck_modules` and
`find_checkable_file_systems`)

External collaborators consumed by these functions become the fields of
`CheckEnv`: `which` is the exit code of `which <cmd>` via
`CoreTools.start_process`, and the mount-manager capabilities are those of
spec section 6. -/

/-- Capability environment of the safety gate. -/
structure CheckEnv where
  rootFS : String
  which : String → Nat
  isMounted : String → Bool
  anyMounted : List String → Bool
  mountPointOf : String → String
  unmount : String → Nat

/-- `find_missing_fsck_modules()` (helpers.py lines 129-155): over the sorted
inventory, every filesystem kind other than the `"Unknown"`/`"N/A"` sentinels
whose `which fsck.<fs>` probe fails contributes `"fsck.<fs>"` to the missing
list. -/
def find_missing_fsck_modules (env : CheckEnv) (disks : List (String × DiskEntry)) :
    List String :=
  (sortEntries disks).filterMap fun p =>
    if p.2.fileSystem = "Unknown" ∨ p.2.fileSystem = "N/A" then none
    else if env.which ("fsck." ++ p.2.fileSystem) ≠ 0 then some ("fsck." ++ p.2.fileSystem)
    else none

/-- Decision taken by one iteration of the `find_checkable_file_systems` loop
for a non-device entry: either check it (with the `MountPoint` and `Remount`
bookkeeping) or skip it with a reason. -/
inductive FSCheckDecision where
  | check (mountPoint : String) (remount : Bool)
  | skip (reason : String)
deriving DecidableEq

/-- Fields stored in `filesystems_to_check[disk]`. -/
structure FSCheckEntry where
  remount : Bool
  mountPoint : String
deriving DecidableEq

/-- The ordered rule chain of `find_checkable_file_systems` (helpers.py lines
183-242) for one non-device disk: missing checker, busy live root, busy LVM
alias of the live root, unrecognised filesystem, then the mount-state
handling (unmounted, LVM with no mounted alias, or temporary unmount with
remount bookkeeping, skipping as busy when the unmount fails). -/
def classify_fs (env : CheckEnv) (isLiveDisk : Bool) (missing : List String)
    (disk : String) (d : DiskEntry) : FSCheckDecision :=
  if ("fsck." ++ d.fileSystem) ∈ missing then .skip "filesystem checker was not found."
  else if isLiveDisk = false ∧ disk = env.rootFS then .skip "disk is busy."
  else if d.product = "LVM Partition" ∧ env.rootFS ∈ d.aliases then .skip "disk is busy."
  else if d.fileSystem = "Unknown" ∨ d.fileSystem = "N/A" then
    .skip "filesystem was not recognised."
  else if env.isMounted disk = false then .check "None" false
  else if d.product = "LVM Partition" ∧ env.anyMounted d.aliases = false then
    .check "None" false
  else if env.unmount disk ≠ 0 then .skip "disk is busy."
  else .check (env.mountPointOf disk) true

/-- `find_checkable_file_systems()` (helpers.py lines 157-267): device entries
are ignored; every other sorted inventory entry lands either in the returned
checkable map (first component, the `filesystems_to_check` dictionary with its
`Remount` and `MountPoint` fields) or, with its skip reason, in the
`do_not_check_list` report (second component, kept as (disk, reason) pairs;
`do_not_check_messages` renders the reported strings). -/
def find_checkable_file_systems (env : CheckEnv) (sys : SystemInfo)
    (disks : List (String × DiskEntry)) :
    List (String × FSCheckEntry) × List (String × String) :=
  let missing := find_missing_fsck_modules env disks
  ((sortEntries disks).filterMap fun p =>
      if p.2.type = "Device" then none
      else
        match classify_fs env sys.isLiveDisk missing p.1 p.2 with
        | .check mp rm => some (p.1, ⟨rm, mp⟩)
        | .skip _ => none,
    (sortEntries disks).filterMap fun p =>
      if p.2.type = "Device" then none
      else
        match classify_fs env sys.isLiveDisk missing p.1 p.2 with
        | .check _ _ => none
        | .skip r => some (p.1, r))

/-- The strings appended to `do_not_check_list`: `<disk>, because the <reason>`. -/
def do_not_check_messages (skips : List (String × String)) : List String :=
  skips.map fun p => p.1 ++ ", because the " ++ p.2

/-- Keys of an association list. -/
def keysOf {α : Type} (l : List (String × α)) : List String :=
  l.map Prod.fst

theorem mem_checkable_map (env : CheckEnv) (sys : SystemInfo)
    (disks : List (String × DiskEntry)) (k : String) (e : FSCheckEntry) :
    (k, e) ∈ (find_checkable_file_systems env sys disks).1 ↔
      ∃ d, (k, d) ∈ disks ∧ d.type ≠ "Device" ∧
        classify_fs env sys.isLiveDisk (find_missing_fsck_modules env disks) k d =
          .check e.mountPoint e.remount := by
  unfold find_checkable_file_systems
  simp only [List.mem_filterMap]
  constructor
  · rintro ⟨⟨k', d⟩, hmem, hf⟩
    by_cases ht : d.type = "Device"
    · simp [ht] at hf
    · simp only [ht, if_neg, if_false] at hf
      cases hc : classify_fs env sys.isLiveDisk (find_missing_fsck_modules env disks) k' d with
      | check mp rm =>
        rw [hc] at hf
        simp only [Option.some.injEq, Prod.mk.injEq] at hf
        obtain ⟨hk, he⟩ := hf
        subst hk
        refine ⟨d, (mem_sortEntries _ _).mp hmem, ht, ?_⟩
        rw [hc, ← he]
      | skip r =>
        rw [hc] at hf
        simp at hf
  · rintro ⟨d, hmem, ht, hc⟩
    refine ⟨(k, d), (mem_sortEntries _ _).mpr hmem, ?_⟩
    simp only [ht, if_neg, if_false]
    rw [hc]

theorem mem_skip_list (env : CheckEnv) (sys : SystemInfo)
    (disks : List (String × DiskEntry)) (k : String) (r : String) :
    (k, r) ∈ (find_checkable_file_systems env sys disks).2 ↔
      ∃ d, (k, d) ∈ disks ∧ d.type ≠ "Device" ∧
        classify_fs env sys.isLiveDisk (find_missing_fsck_modules env disks) k d = .skip r := by
  unfold find_checkable_file_systems
  simp only [List.mem_filterMap]
  constructor
  · rintro ⟨⟨k', d⟩, hmem, hf⟩
    by_cases ht : d.type = "Device"
    · simp [ht] at hf
    · simp only [ht, if_neg, if_false] at hf
      cases hc : classify_fs env sys.isLiveDisk (find_missing_fsck_modules env disks) k' d with
      | check mp rm =>
        rw [hc] at hf
        simp at hf
      | skip r' =>
        rw [hc] at hf
        simp only [Option.some.injEq, Prod.mk.injEq] at hf
        obtain ⟨hk, he⟩ := hf
        subst hk
        exact ⟨d, (mem_sortEntries _ _).mp hmem, ht, by rw [hc, he]⟩
  · rintro ⟨d, hmem, ht, hc⟩
    refine ⟨(k, d), (mem_sortEntries _ _).mpr hmem, ?_⟩
    simp only [ht, if_neg, if_false]
    rw [hc]

theorem mem_keysOf {α : Type} (l : List (String × α)) (k : String) :
    k ∈ keysOf l ↔ ∃ e, (k, e) ∈ l := by
  unfold keysOf
  simp only [List.mem_map]
  constructor
  · rintro ⟨⟨k', e⟩, hm, rfl⟩
    exact ⟨e, hm⟩
  · rintro ⟨e, hm⟩
    exact ⟨(k, e), hm, rfl⟩

theorem assoc_nodup_eq {α : Type} (l : List (String × α)) (k : String) (a b : α)
    (hnodup : (keysOf l).Nodup) (ha : (k, a) ∈ l) (hb : (k, b) ∈ l) : a = b := by
  induction l with
  | nil => simp at ha
  | cons p rest ih =>
    unfold keysOf at hnodup
    simp only [List.map_cons, List.nodup_cons] at hnodup
    rcases List.mem_cons.mp ha with ha1 | ha1 <;> rcases List.mem_cons.mp hb with hb1 | hb1
    · exact congrArg Prod.snd (ha1.trans hb1.symm)
    · exfalso
      exact hnodup.1 (by rw [← ha1]; exact (mem_keysOf rest k).mpr ⟨b, hb1⟩)
    · exfalso
      exact hnodup.1 (by rw [← hb1]; exact (mem_keysOf rest k).mpr ⟨a, ha1⟩)
    · exact ih hnodup.2 ha1 hb1

theorem classify_fs_root_skip (env : CheckEnv) (missing : List String) (disk : String)
    (d : DiskEntry)
    (h : disk = env.rootFS ∨ (d.product = "LVM Partition" ∧ env.rootFS ∈ d.aliases)) :
    ∀ mp rm, classify_fs env false missing disk d ≠ .check mp rm := by
  intro mp rm
  unfold classify_fs
  split_ifs <;> simp_all

/-- C2: with `SYSTEM_INFO["IsLiveDisk"]` false, the checkable map returned by
`find_checkable_file_systems` never contains the partition mounted at `"/"`
(the live root), nor an LVM partition whose alias set contains the live root
path. -/
theorem C2_live_root_never_checkable (env : CheckEnv) (sys : SystemInfo)
    (disks : List (String × DiskEntry)) (k : String) (e : FSCheckEntry) (d : DiskEntry)
    (hlive : sys.isLiveDisk = false)
    (hnodup : (keysOf disks).Nodup)
    (hmap : (k, e) ∈ (find_checkable_file_systems env sys disks).1)
    (hd : (k, d) ∈ disks) :
    k ≠ env.rootFS ∧ ¬(d.product = "LVM Partition" ∧ env.rootFS ∈ d.aliases) := by
  obtain ⟨d', hd', ht', hc'⟩ := (mem_checkable_map env sys disks k e).mp hmap
  have hdd : d' = d := assoc_nodup_eq disks k d' d hnodup hd' hd
  subst hdd
  rw [hlive] at hc'
  constructor
  · intro hk
    exact classify_fs_root_skip env _ k d' (Or.inl hk) e.mountPoint e.remount hc'
  · intro hlvm
    exact classify_fs_root_skip env _ k d' (Or.inr hlvm) e.mountPoint e.remount hc'

/-- Environment for the concrete live-root safety check. -/
def c2env : CheckEnv :=
  ⟨"/dev/sda1", fun _ => 0, fun _ => false, fun _ => false, fun _ => "None", fun _ => 0⟩

/-- Inventory for the concrete live-root safety check: the live root and one
other partition. -/
def c2disks : List (String × DiskEntry) :=
  [("/dev/sda1", ⟨"Partition", "ext4", "11-11", "", []⟩),
   ("/dev/sda2", ⟨"Partition", "ext4", "22-22", "", []⟩)]

/-- Witness for C2: in a two-partition inventory the non-root partition is
checkable and is indeed neither the live root nor an LVM alias of it. -/
theorem C2_live_root_never_checkable_witness :
    "/dev/sda2" ≠ c2env.rootFS ∧
      ¬((⟨"Partition", "ext4", "22-22", "", []⟩ : DiskEntry).product = "LVM Partition" ∧
        c2env.rootFS ∈ (⟨"Partition", "ext4", "22-22", "", []⟩ : DiskEntry).aliases) :=
  C2_live_root_never_checkable c2env ⟨false, none⟩ c2disks "/dev/sda2" ⟨false, "None"⟩
    ⟨"Partition", "ext4", "22-22", "", []⟩ rfl (by decide)
    (by
      have h : (find_checkable_file_systems c2env ⟨false, none⟩ c2disks).1 =
          [("/dev/sda2", (⟨false, "None"⟩ : FSCheckEntry))] := by decide
      rw [h]
      simp)
    (by simp [c2disks])

/-- Environment for the unrecognised-filesystem counterexample: no checker
utility is installed at all (`which` always fails). -/
def c7env : CheckEnv :=
  ⟨"/dev/sda1", fun _ => 1, fun _ => false, fun _ => false, fun _ => "None", fun _ => 0⟩

/-- Inventory for the unrecognised-filesystem counterexample. -/
def c7disks : List (String × DiskEntry) :=
  [("/dev/sdb1", ⟨"Partition", "Unknown", "", "", []⟩)]

/-- Counterexample to C7: a non-device entry with filesystem `"Unknown"` whose
checker `fsck.Unknown` is absent (`which` fails for everything) is skipped
with the reason `"filesystem was not recognised."`, not with a reason ending
in `"filesystem checker was not found."`. -/
theorem C7_counterexample :
    (find_checkable_file_systems c7env ⟨false, none⟩ c7disks).1 = [] ∧
      (find_checkable_file_systems c7env ⟨false, none⟩ c7disks).2 =
        [("/dev/sdb1", "filesystem was not recognised.")] ∧
      c7env.which "fsck.Unknown" ≠ 0 ∧
      "filesystem was not recognised." ≠ "filesystem checker was not found." := by
  refine ⟨by decide, by decide, by decide, by decide⟩

/-- C7 (amended): for every non-device entry with a recognised filesystem
(not `"Unknown"`/`"N/A"`) whose checker `fsck.<fs>` is absent, the
missing-checker rule fires first and wins over every later rule — even when
the entry is also the busy live root or an LVM alias of it — excluding the
entry from the checkable map and reporting it with the skip reason
`"filesystem checker was not found."`. -/
theorem C7_amended_missing_checker_wins (env : CheckEnv) (sys : SystemInfo)
    (disks : List (String × DiskEntry)) (k : String) (d : DiskEntry)
    (hd : (k, d) ∈ disks)
    (ht : d.type ≠ "Device")
    (hfs1 : d.fileSystem ≠ "Unknown") (hfs2 : d.fileSystem ≠ "N/A")
    (hw : env.which ("fsck." ++ d.fileSystem) ≠ 0)
    (hnodup : (keysOf disks).Nodup) :
    k ∉ keysOf (find_checkable_file_systems env sys disks).1 ∧
      (k, "filesystem checker was not found.") ∈ (find_checkable_file_systems env sys disks).2 ∧
      (k ++ ", because the " ++ "filesystem checker was not found.") ∈
        do_not_check_messages (find_checkable_file_systems env sys disks).2 := by
  have hmiss : ("fsck." ++ d.fileSystem) ∈ find_missing_fsck_modules env disks := by
    unfold find_missing_fsck_modules
    refine List.mem_filterMap.mpr ⟨(k, d), (mem_sortEntries _ _).mpr hd, ?_⟩
    rw [if_neg (by simp [hfs1, hfs2]), if_pos hw]
  have hcl : classify_fs env sys.isLiveDisk (find_missing_fsck_modules env disks) k d =
      .skip "filesystem checker was not found." := by
    unfold classify_fs
    rw [if_pos hmiss]
  have hskip : (k, "filesystem checker was not found.") ∈
      (find_checkable_file_systems env sys disks).2 :=
    (mem_skip_list env sys disks k _).mpr ⟨d, hd, ht, hcl⟩
  refine ⟨?_, hskip, ?_⟩
  · intro hk
    obtain ⟨e, he⟩ := (mem_keysOf _ k).mp hk
    obtain ⟨d', hd', ht', hc'⟩ := (mem_checkable_map env sys disks k e).mp he
    rw [assoc_nodup_eq disks k d' d hnodup hd' hd] at hc'
    rw [hcl] at hc'
    exact FSCheckDecision.noConfusion hc'
  · unfold do_not_check_messages
    exact List.mem_map.mpr ⟨(k, "filesystem checker was not found."), hskip, rfl⟩

/-- Environment for the concrete missing-checker check: the entry is the busy
live root itself and its checker is absent. -/
def c7wenv : CheckEnv :=
  ⟨"/dev/sdc1", fun _ => 1, fun _ => true, fun _ => true, fun _ => "/", fun _ => 0⟩

/-- Inventory for the concrete missing-checker check. -/
def c7wdisks : List (String × DiskEntry) :=
  [("/dev/sdc1", ⟨"Partition", "ext4", "33-33", "", []⟩)]

/-- Witness for the amended C7: the busy live root with an absent `fsck.ext4`
is skipped with the missing-checker reason, which wins over the busy rule. -/
theorem C7_amended_missing_checker_wins_witness :
    "/dev/sdc1" ∉ keysOf (find_checkable_file_systems c7wenv ⟨false, none⟩ c7wdisks).1 ∧
      ("/dev/sdc1", "filesystem checker was not found.") ∈
        (find_checkable_file_systems c7wenv ⟨false, none⟩ c7wdisks).2 ∧
      ("/dev/sdc1" ++ ", because the " ++ "filesystem checker was not found.") ∈
        do_not_check_messages (find_checkable_file_systems c7wenv ⟨false, none⟩ c7wdisks).2 :=
  C7_amended_missing_checker_wins c7wenv ⟨false, none⟩ c7wdisks "/dev/sdc1"
    ⟨"Partition", "ext4", "33-33", "", []⟩ (by simp [c7wdisks]) (by decide) (by decide)
    (by decide) (by decide) (by decide)

/-- C10: every non-device inventory entry lands in exactly one of the two
outputs of `find_checkable_file_systems` — the checkable map or the skip
report — while a `Device` entry appears in neither. -/
theorem C10_exactly_one_outcome (env : CheckEnv) (sys : SystemInfo)
    (disks : List (String × DiskEntry)) (k : String) (d : DiskEntry)
    (hd : (k, d) ∈ disks) (hnodup : (keysOf disks).Nodup) :
    (d.type = "Device" →
      k ∉ keysOf (find_checkable_file_systems env sys disks).1 ∧
        k ∉ keysOf (find_checkable_file_systems env sys disks).2) ∧
      (d.type ≠ "Device" →
        (k ∈ keysOf (find_checkable_file_systems env sys disks).1 ∧
            k ∉ keysOf (find_checkable_file_systems env sys disks).2) ∨
          (k ∈ keysOf (find_checkable_file_systems env sys disks).2 ∧
            k ∉ keysOf (find_checkable_file_systems env sys disks).1)) := by
  constructor
  · intro hdev
    constructor
    · intro hk
      obtain ⟨e, he⟩ := (mem_keysOf _ k).mp hk
      obtain ⟨d', hd', ht', _⟩ := (mem_checkable_map env sys disks k e).mp he
      exact ht' (by rw [assoc_nodup_eq disks k d' d hnodup hd' hd]; exact hdev)
    · intro hk
      obtain ⟨r, hr⟩ := (mem_keysOf _ k).mp hk
      obtain ⟨d', hd', ht', _⟩ := (mem_skip_list env sys disks k r).mp hr
      exact ht' (by rw [assoc_nodup_eq disks k d' d hnodup hd' hd]; exact hdev)
  · intro hnd
    cases hc : classify_fs env sys.isLiveDisk (find_missing_fsck_modules env disks) k d with
    | check mp rm =>
      left
      constructor
      · exact (mem_keysOf _ k).mpr ⟨⟨rm, mp⟩, (mem_checkable_map env sys disks k ⟨rm, mp⟩).mpr
          ⟨d, hd, hnd, hc⟩⟩
      · intro hk
        obtain ⟨r, hr⟩ := (mem_keysOf _ k).mp hk
        obtain ⟨d', hd', ht', hc'⟩ := (mem_skip_list env sys disks k r).mp hr
        rw [assoc_nodup_eq disks k d' d hnodup hd' hd, hc] at hc'
        exact FSCheckDecision.noConfusion hc'
    | skip r =>
      right
      constructor
      · exact (mem_keysOf _ k).mpr ⟨r, (mem_skip_list env sys disks k r).mpr ⟨d, hd, hnd, hc⟩⟩
      · intro hk
        obtain ⟨e, he⟩ := (mem_keysOf _ k).mp hk
        obtain ⟨d', hd', ht', hc'⟩ := (mem_checkable_map env sys disks k e).mp he
        rw [assoc_nodup_eq disks k d' d hnodup hd' hd, hc] at hc'
        exact FSCheckDecision.noConfusion hc'

/-- Inventory for the concrete device-exclusion check: a whole device and one
of its partitions. -/
def c10disks : List (String × DiskEntry) :=
  [("/dev/sda", ⟨"Device", "ext4", "", "", []⟩),
   ("/dev/sda1", ⟨"Partition", "ext4", "44-44", "", []⟩)]

/-- Witness for C10: the `Device` entry of a concrete inventory appears in
neither output of `find_checkable_file_systems`. -/
theorem C10_exactly_one_outcome_witness :
    "/dev/sda" ∉ keysOf (find_checkable_file_systems c2env ⟨false, none⟩ c10disks).1 ∧
      "/dev/sda" ∉ keysOf (find_checkable_file_systems c2env ⟨false, none⟩ c10disks).2 :=
  (C10_exactly_one_outcome c2env ⟨false, none⟩ c10disks "/dev/sda"
    ⟨"Device", "ext4", "", "", []⟩ (by simp [c10disks]) (by decide)).1 rfl

/-! ## The OS detector (MainStartupToolsTestFunctions.py, `get_oss`)

The external collaborators the scan consumes — the `CoreTools` mount manager
and process runner and the `CoreStartupTools` probes (architecture, lsb
release name, interactive name prompt, package-manager detection, fstab
parsing), which the spec lists as injected capabilities — are the fields of
`DetectEnv`.  Exit codes are `Nat`; probes that can fail return `Option`. -/

/-- Capability environment of the OS detection scan. -/
structure DetectEnv where
  rootFS : String
  isMounted : String → Bool
  mountPointOf : String → String
  mountPartition : String → String → Nat
  unmount : String → Nat
  pathExists : String → Bool
  isDir : String → Bool
  hasWindows9x : String → Bool
  hasWindowsXP : String → Bool
  hasWindowsVista : String → Bool
  hasWindows7 : String → Bool
  hasWindows8 : String → Bool
  hasWindows10 : String → Bool
  startProcess : String → Nat × String
  determineOSArchitecture : String → Option String
  getOSNameWithLSB : String → String → Bool → Option String
  askForOSName : String → Bool → Option String
  determinePackageManager : String → String → String
  getFSTabInfo : String → String → List String × String × String

/-- Mutable state of the scan: the `OS_INFO` table and the `SYSTEM_INFO`
slice. -/
structure ScanState where
  osInfo : List (String × OSRecord)
  sysInfo : SystemInfo
deriving DecidableEq

/-- The synthetic mount root `"/mnt/wxfixboot/mountpoints"` that `get_oss`
prepends to a partition's device path. -/
def mountpointsDir : String := "/mnt/wxfixboot/mountpoints"

/-- `temp._2.1` below: whether the scan mounted the partition itself
(`was_mounted`); `temp.1`: the mount point; `temp.2.2`: whether the mount
state is usable (an already-mounted partition, or a successful fresh mount).
Mirrors the shared mount preamble of the macOS and Windows arms. -/
def temp_mount (env : DetectEnv) (partition : String) : String × Bool × Bool :=
  if env.isMounted partition then (env.mountPointOf partition, false, true)
  else
    (mountpointsDir ++ partition, true,
      decide (env.mountPartition partition (mountpointsDir ++ partition) = 0))

/-- `'\n'`-stripping of the distro probe output: `temp.replace('\n', '')`
removes every newline character. -/
def stripNewlines (s : String) : String :=
  ⟨s.data.filter fun c => c ≠ '\n'⟩

/-- Python `str.isspace()`: non-empty and every character is whitespace. -/
def pyIsSpace (s : String) : Bool :=
  !s.data.isEmpty && s.data.all fun c => c.isWhitespace

/-- The filesystem kinds routed to the macOS arm. -/
def macFSList : List String := ["hfsplus", "hfs", "apfs"]

/-- The filesystem kinds routed to the Windows arm. -/
def winFSList : List String := ["vfat", "ntfs", "exfat"]

/-- The OSRecord the macOS arm stores (lines 106-113): `IsCurrentOS` false,
`Arch` `"Unknown"`, package manager `"Mac App Store"`, identity fields
`Unknown`. -/
def mac_os_record (partition : String) : OSRecord :=
  ⟨"Mac OS X (" ++ partition ++ ")", false, "Unknown", partition, "Mac App Store",
    ["Unknown"], "Unknown", "Unknown"⟩

/-- Whether a macOS kernel marker is present under the mount point. -/
def mac_kernel_found (env : DetectEnv) (mp : String) : Bool :=
  env.pathExists (mp ++ "/mach_kernel") ||
    env.pathExists (mp ++ "/System/Library/Kernels/kernel")

/-- The macOS arm of the scan loop (lines 84-121).  The returned flag is
false exactly when the final unmount of a freshly mounted partition failed,
which `break`s the enclosing loop. -/
def mac_branch (env : DetectEnv) (partition : String) (st : ScanState) : ScanState × Bool :=
  let m := temp_mount env partition
  if m.2.2 = false then (st, true)
  else
    let st1 :=
      if mac_kernel_found env m.1 then
        let nm := "Mac OS X (" ++ partition ++ ")"
        { st with osInfo := dictInsert st.osInfo nm (mac_os_record partition) }
      else st
    if m.2.1 = true ∧ env.unmount m.1 ≠ 0 then (st1, false) else (st1, true)

/-- Whether a Windows marker directory is present under the mount point. -/
def windows_marker_found (env : DetectEnv) (mp : String) : Bool :=
  env.isDir (mp ++ "/WinNT") || env.isDir (mp ++ "/Windows") || env.isDir (mp ++ "/WINDOWS")

/-- The first-match-wins cascade of Windows edition probes (lines 149-170). -/
def windows_base_name (env : DetectEnv) (mp : String) : String :=
  if env.hasWindows9x mp then "Windows 95/98/ME"
  else if env.hasWindowsXP mp then "Windows XP"
  else if env.hasWindowsVista mp then "Windows Vista"
  else if env.hasWindows7 mp then "Windows 7"
  else if env.hasWindows8 mp then "Windows 8/8.1"
  else if env.hasWindows10 mp then "Windows 10"
  else "Windows"

/-- The OSRecord the Windows arm stores (lines 172-180). -/
def windows_record (name partition : String) : OSRecord :=
  ⟨name, false, "Unknown", partition, "Windows Installer", ["Unknown"], "Unknown", "Unknown"⟩

/-- The Windows arm of the scan loop (lines 123-188). -/
def windows_branch (env : DetectEnv) (partition : String) (st : ScanState) :
    ScanState × Bool :=
  let m := temp_mount env partition
  if m.2.2 = false then (st, true)
  else
    let st1 :=
      if windows_marker_found env m.1 then
        let nm := windows_base_name env m.1 ++ " (" ++ partition ++ ")"
        { st with osInfo := dictInsert st.osInfo nm (windows_record nm partition) }
      else st
    if m.2.1 = true ∧ env.unmount m.1 ≠ 0 then (st1, false) else (st1, true)

/-- Whether the Linux arm treats this partition as the live root: a direct
match against the partition mounted at `"/"`, or the live root being among
the entry's registered aliases (lines 194-199). -/
def owns_root (env : DetectEnv) (partition : String) (d : DiskEntry) : Bool :=
  decide (partition = env.rootFS ∨ env.rootFS ∈ d.aliases)

/-- Mount point the Linux arm works under: empty (no chroot) for the live
root, the synthetic mount path otherwise. -/
def linux_mount_point (env : DetectEnv) (partition : String) (d : DiskEntry) : String :=
  if owns_root env partition d then "" else mountpointsDir ++ partition

/-- The distro-name probe command (line 200). -/
def linux_distro_cmd : String :=
  "python -c \"from __future__ import print_function; import platform; print(\x27 \x27.join(platform.linux_distribution()));\""

/-- The distro probe command, chrooted for a non-live-root partition. -/
def linux_cmd (env : DetectEnv) (partition : String) (d : DiskEntry) : String :=
  if owns_root env partition d then linux_distro_cmd
  else "chroot " ++ mountpointsDir ++ partition ++ " " ++ linux_distro_cmd

/-- The `which apt-get` probe command, chrooted if needed. -/
def linux_apt_cmd (env : DetectEnv) (partition : String) (d : DiskEntry) : String :=
  if owns_root env partition d then "which apt-get"
  else "chroot " ++ mountpointsDir ++ partition ++ " which apt-get"

/-- The `which dnf` probe command, chrooted if needed. -/
def linux_dnf_cmd (env : DetectEnv) (partition : String) (d : DiskEntry) : String :=
  if owns_root env partition d then "which dnf"
  else "chroot " ++ mountpointsDir ++ partition ++ " which dnf"

/-- The Linux arm of the scan loop (lines 190-267): choose direct or chrooted
probing, mount if chrooted (a failed mount skips the partition), run the
distro probe, strip newlines, probe the architecture, fall back to the lsb
probe and then the interactive prompt only when the distro name is missing,
empty or whitespace AND the architecture was determined, detect the package
manager, and store the record only when name, architecture and package
manager are all resolved — snapshotting it into `SYSTEM_INFO["CurrentOS"]`
in the live-root (no-chroot) case.  A chrooted partition is unmounted
afterwards; a failed unmount `break`s the loop (flag false).
`linux_resolved_name` is the name-resolution fallback chain (lines 221-238):
the stripped distro-probe output, replaced — only when the probe failed or
gave an empty or all-whitespace name AND the architecture was determined —
by the lsb probe and then the interactive prompt. -/
def linux_resolved_name (env : DetectEnv) (partition : String) (current : Bool)
    (mp : String) (pr : Nat × String) (osArch : Option String) : Option String :=
  if (pr.1 ≠ 0 ∨ stripNewlines pr.2 = "" ∨ pyIsSpace (stripNewlines pr.2) = true) ∧
      osArch ≠ none then
    match env.getOSNameWithLSB partition mp current with
    | some n => some n
    | none => env.askForOSName partition current
  else some (stripNewlines pr.2)

/-- The record-storing tail of the Linux arm (lines 246-257): the record is
stored, and snapshotted into `SYSTEM_INFO["CurrentOS"]` in the no-chroot
case, only when name, architecture and package manager are all resolved. -/
def linux_store (getFSTab : String → String → List String × String × String)
    (partition : String) (current : Bool) (mp : String)
    (osName osArch : Option String) (pm : String) (st : ScanState) : ScanState :=
  match osName, osArch with
  | some n, some a =>
    if pm ≠ "Unknown" then
      let ft := getFSTab mp n
      let r : OSRecord := ⟨n, current, a, partition, pm, ft.1, ft.2.1, ft.2.2⟩
      let st' := { st with osInfo := dictInsert st.osInfo n r }
      if current then { st' with sysInfo := { st'.sysInfo with currentOS := some r } }
      else st'
    else st
  | _, _ => st

def linux_branch (env : DetectEnv) (partition : String) (d : DiskEntry) (st : ScanState) :
    ScanState × Bool :=
  let current := owns_root env partition d
  let mp := linux_mount_point env partition d
  if current = false ∧ env.mountPartition partition mp ≠ 0 then (st, true)
  else
    let pr := env.startProcess (linux_cmd env partition d)
    let osArch := env.determineOSArchitecture mp
    let osName := linux_resolved_name env partition current mp pr osArch
    let pm := env.determinePackageManager (linux_apt_cmd env partition d)
      (linux_dnf_cmd env partition d)
    let st1 := linux_store env.getFSTabInfo partition current mp osName osArch pm st
    if current then (st1, true)
    else if env.unmount mp ≠ 0 then (st1, false) else (st1, true)

/-- One iteration of the `get_oss` loop: device entries are skipped, the
macOS, Windows and Linux arms are dispatched on the filesystem kind.  The
returned flag is false when the iteration `break`s the loop. -/
def scan_step (env : DetectEnv) (p : String × DiskEntry) (st : ScanState) :
    ScanState × Bool :=
  if p.2.type = "Device" then (st, true)
  else if p.2.fileSystem ∈ macFSList then mac_branch env p.1 st
  else if p.2.fileSystem ∈ winFSList then windows_branch env p.1 st
  else linux_branch env p.1 p.2 st

/-- The `get_oss` scan loop over the sorted inventory entries; a `break`
(step flag false) abandons the remaining entries. -/
def scan_loop (env : DetectEnv) : List (String × DiskEntry) → ScanState → ScanState
  | [], st => st
  | p :: rest, st =>
    match scan_step env p st with
    | (st', true) => scan_loop env rest st'
    | (st', false) => st'

/-- `get_oss()` (lines 72-274): run the scan over the sorted inventory, then
return `(OS_INFO, SYSTEM_INFO)` when at least one OSRecord exists, and the
sentinel failure pair `(False, False)` — modelled as `none` — otherwise. -/
def get_oss (env : DetectEnv) (disks : List (String × DiskEntry)) (st : ScanState) :
    Option (List (String × OSRecord) × SystemInfo) :=
  let st' := scan_loop env (sortEntries disks) st
  if st'.osInfo.length ≥ 1 then some (st'.osInfo, st'.sysInfo) else none

/-- C3: `get_oss` returns the `(OS_INFO, SYSTEM_INFO)` pair exactly when at
least one OSRecord exists after all inventory entries are processed, and the
sentinel failure pair (modelled `none`) otherwise; in particular a run over
an empty inventory started with an empty OS table yields the sentinel. -/
theorem C3_sentinel_when_no_os (env : DetectEnv) (disks : List (String × DiskEntry))
    (st : ScanState) :
    (get_oss env disks st = none ↔ (scan_loop env (sortEntries disks) st).osInfo = []) ∧
      (disks = [] → st.osInfo = [] → get_oss env disks st = none) := by
  have key : get_oss env disks st = none ↔
      (scan_loop env (sortEntries disks) st).osInfo = [] := by
    unfold get_oss
    by_cases h : (scan_loop env (sortEntries disks) st).osInfo.length ≥ 1
    · rw [if_pos h]
      constructor
      · intro hc
        exact absurd hc (by simp)
      · intro hc
        rw [hc] at h
        simp at h
    · rw [if_neg h]
      have hnil : (scan_loop env (sortEntries disks) st).osInfo = [] := by
        cases hh : (scan_loop env (sortEntries disks) st).osInfo with
        | nil => rfl
        | cons a l => rw [hh] at h; simp at h
      simp [hnil]
  refine ⟨key, fun hd hst => ?_⟩
  subst hd
  rw [key]
  simpa [sortEntries, scan_loop] using hst

/-- Environment for the concrete empty-inventory detection run. -/
def c3env : DetectEnv :=
  ⟨"/dev/sda1", fun _ => false, fun _ => "", fun _ _ => 1, fun _ => 0, fun _ => false,
    fun _ => false, fun _ => false, fun _ => false, fun _ => false, fun _ => false,
    fun _ => false, fun _ => false, fun _ => (1, ""), fun _ => none, fun _ _ _ => none,
    fun _ _ => none, fun _ _ => "Unknown", fun _ _ => ([], "", "")⟩

/-- Witness for C3: a detection run over zero inventory entries, started with
an empty OS table, yields the sentinel failure result. -/
theorem C3_sentinel_when_no_os_witness :
    get_oss c3env [] ⟨[], ⟨false, none⟩⟩ = none :=
  (C3_sentinel_when_no_os c3env [] ⟨[], ⟨false, none⟩⟩).2 rfl rfl

/-- C8: in each of the macOS, Windows and chrooted Linux arms, a failed
unmount of a freshly mounted partition breaks the whole scan loop — the
remaining inventory entries after the failing one are never examined, so the
loop result over `(k, d) :: rest` equals the result over `[(k, d)]` alone. -/
theorem C8_unmount_failure_breaks_scan (env : DetectEnv) (k : String) (d : DiskEntry)
    (st : ScanState) (rest : List (String × DiskEntry))
    (ht : d.type ≠ "Device")
    (hm : env.isMounted k = false)
    (hmount : env.mountPartition k (mountpointsDir ++ k) = 0)
    (hunmount : env.unmount (mountpointsDir ++ k) ≠ 0)
    (hbranch : d.fileSystem ∈ macFSList ∨ d.fileSystem ∈ winFSList ∨
      (d.fileSystem ∉ macFSList ∧ d.fileSystem ∉ winFSList ∧ owns_root env k d = false)) :
    scan_loop env ((k, d) :: rest) st = scan_loop env [(k, d)] st := by
  have hstep : (scan_step env (k, d) st).2 = false := by
    unfold scan_step
    rw [if_neg ht]
    rcases hbranch with hb | hb | hb
    · rw [if_pos hb]
      unfold mac_branch temp_mount
      simp [hm, hmount, hunmount]
    · have hmac : d.fileSystem ∉ macFSList := by
        simp only [winFSList, List.mem_cons, List.not_mem_nil, or_false] at hb
        rcases hb with h | h | h <;> rw [h] <;> decide
      rw [if_neg hmac, if_pos hb]
      unfold windows_branch temp_mount
      simp [hm, hmount, hunmount]
    · rw [if_neg hb.1, if_neg hb.2.1]
      unfold linux_branch linux_mount_point
      simp [hb.2.2, hmount, hunmount]
  cases hs : scan_step env (k, d) st with
  | mk st' flag =>
    rw [hs] at hstep
    simp only at hstep
    subst hstep
    simp [scan_loop, hs]

/-- Environment for the concrete unmount-failure run: the partition mounts
fine but every unmount fails. -/
def c8env : DetectEnv :=
  ⟨"/dev/sda1", fun _ => false, fun _ => "", fun _ _ => 0, fun _ => 1, fun _ => true,
    fun _ => false, fun _ => false, fun _ => false, fun _ => false, fun _ => false,
    fun _ => false, fun _ => false, fun _ => (1, ""), fun _ => none, fun _ _ _ => none,
    fun _ _ => none, fun _ _ => "Unknown", fun _ _ => ([], "", "")⟩

/-- A macOS-family partition entry for the unmount-failure run. -/
def c8entry : DiskEntry := ⟨"Partition", "hfs", "55-55", "", []⟩

/-- Witness for C8: after the unmount failure on the first entry, scanning
`[first, second]` gives the same state as scanning only `[first]`. -/
theorem C8_unmount_failure_breaks_scan_witness :
    scan_loop c8env [("/dev/sdd1", c8entry), ("/dev/sdd2", c8entry)] ⟨[], ⟨false, none⟩⟩ =
      scan_loop c8env [("/dev/sdd1", c8entry)] ⟨[], ⟨false, none⟩⟩ :=
  C8_unmount_failure_breaks_scan c8env "/dev/sdd1" c8entry ⟨[], ⟨false, none⟩⟩
    [("/dev/sdd2", c8entry)] (by decide) (by decide) (by decide) (by decide)
    (Or.inl (by decide))

theorem linux_resolved_name_arch_none (env : DetectEnv) (p : String) (cur : Bool)
    (mp : String) (pr : Nat × String) :
    linux_resolved_name env p cur mp pr none = some (stripNewlines pr.2) := by
  unfold linux_resolved_name
  rw [if_neg]
  simp

theorem linux_resolved_name_probe_ok (env : DetectEnv) (p : String) (cur : Bool)
    (mp : String) (pr : Nat × String) (osArch : Option String)
    (h1 : pr.1 = 0) (h2 : stripNewlines pr.2 ≠ "")
    (h3 : pyIsSpace (stripNewlines pr.2) = false) :
    linux_resolved_name env p cur mp pr osArch = some (stripNewlines pr.2) := by
  unfold linux_resolved_name
  rw [if_neg]
  rintro ⟨hl, _⟩
  rcases hl with h | h | h
  · exact h h1
  · exact h2 h
  · rw [h3] at h
    exact Bool.false_ne_true h

theorem linux_store_arch_none (ft : String → String → List String × String × String)
    (p : String) (cur : Bool) (mp : String)
    (nm : Option String) (pm : String) (st : ScanState) :
    linux_store ft p cur mp nm none pm st = st := by
  cases nm <;> rfl

/-- C6: in the Linux arm, when the architecture probe returns `none` the
name-fallback chain (lsb probe, interactive prompt) is not consulted at all —
any environment `env2` that may differ from `env` in exactly those two
capabilities (it agrees on every field the arm otherwise uses) produces the
identical result — and no OSRecord is stored for the partition; moreover
when the distro probe succeeded with a non-empty, non-whitespace name the
fallback chain is likewise never consulted. -/
theorem C6_arch_failure_gates_fallback (env env2 : DetectEnv)
    (k : String) (d : DiskEntry) (st : ScanState)
    (h1 : env2.rootFS = env.rootFS)
    (h2 : env2.mountPartition = env.mountPartition)
    (h3 : env2.startProcess = env.startProcess)
    (h4 : env2.determineOSArchitecture = env.determineOSArchitecture)
    (h5 : env2.determinePackageManager = env.determinePackageManager)
    (h6 : env2.getFSTabInfo = env.getFSTabInfo)
    (h7 : env2.unmount = env.unmount) :
    (env.determineOSArchitecture (linux_mount_point env k d) = none →
      linux_branch env2 k d st = linux_branch env k d st ∧
        ((linux_branch env k d st).1).osInfo = st.osInfo) ∧
      ((env.startProcess (linux_cmd env k d)).1 = 0 ∧
          stripNewlines (env.startProcess (linux_cmd env k d)).2 ≠ "" ∧
          pyIsSpace (stripNewlines (env.startProcess (linux_cmd env k d)).2) = false →
        linux_branch env2 k d st = linux_branch env k d st) := by
  obtain ⟨e1, e2, e3, e4, e5, e6, e7, e8, e9, e10, e11, e12, e13, e14, e15, e16, e17,
    e18, e19⟩ := env
  obtain ⟨f1, f2, f3, f4, f5, f6, f7, f8, f9, f10, f11, f12, f13, f14, f15, f16, f17,
    f18, f19⟩ := env2
  dsimp only at h1 h2 h3 h4 h5 h6 h7
  subst h1 h2 h3 h4 h5 h6 h7
  constructor
  · intro harch
    simp only [linux_mount_point, owns_root] at harch
    constructor
    · simp only [linux_branch, linux_mount_point, linux_cmd, linux_apt_cmd, linux_dnf_cmd,
        owns_root]
      rw [harch]
      rw [linux_resolved_name_arch_none, linux_resolved_name_arch_none,
        linux_store_arch_none]
    · simp only [linux_branch, linux_mount_point, linux_cmd, linux_apt_cmd, linux_dnf_cmd,
        owns_root]
      rw [harch]
      rw [linux_resolved_name_arch_none, linux_store_arch_none]
      simp [apply_ite Prod.fst]
  · intro ⟨hp1, hp2, hp3⟩
    simp only [linux_cmd, owns_root] at hp1 hp2 hp3
    simp only [linux_branch, linux_mount_point, linux_cmd, linux_apt_cmd, linux_dnf_cmd,
      owns_root]
    rw [linux_resolved_name_probe_ok _ k _ _ _ _ hp1 hp2 hp3,
        linux_resolved_name_probe_ok _ k _ _ _ _ hp1 hp2 hp3]

/-- Environment for the concrete architecture-gate run: the distro probe
succeeds but the architecture probe fails, and the fallback capabilities
would answer if consulted. -/
def c6env : DetectEnv :=
  ⟨"/dev/sda1", fun _ => false, fun _ => "", fun _ _ => 0, fun _ => 0, fun _ => false,
    fun _ => false, fun _ => false, fun _ => false, fun _ => false, fun _ => false,
    fun _ => false, fun _ => false, fun _ => (0, "Ubuntu 20.04"), fun _ => none,
    fun _ _ _ => some "lsb name", fun _ _ => some "asked name", fun _ _ => "apt-get",
    fun _ _ => (["Unknown"], "Unknown", "Unknown")⟩

/-- The same environment with both fallback-name capabilities replaced by
refusals. -/
def c6envB : DetectEnv :=
  ⟨"/dev/sda1", fun _ => false, fun _ => "", fun _ _ => 0, fun _ => 0, fun _ => false,
    fun _ => false, fun _ => false, fun _ => false, fun _ => false, fun _ => false,
    fun _ => false, fun _ => false, fun _ => (0, "Ubuntu 20.04"), fun _ => none,
    fun _ _ _ => none, fun _ _ => none, fun _ _ => "apt-get",
    fun _ _ => (["Unknown"], "Unknown", "Unknown")⟩

/-- Linux-family partition entry for the architecture-gate run. -/
def c6entry : DiskEntry := ⟨"Partition", "ext4", "66-66", "", []⟩

/-- Witness for C6: with the architecture probe failing, replacing both
fallback-name capabilities changes nothing and no record is stored; the
distro-probe-success gate also holds at this input. -/
theorem C6_arch_failure_gates_fallback_witness :
    (linux_branch c6envB "/dev/sde1" c6entry ⟨[], ⟨false, none⟩⟩ =
        linux_branch c6env "/dev/sde1" c6entry ⟨[], ⟨false, none⟩⟩ ∧
      ((linux_branch c6env "/dev/sde1" c6entry ⟨[], ⟨false, none⟩⟩).1).osInfo = []) ∧
      linux_branch c6envB "/dev/sde1" c6entry ⟨[], ⟨false, none⟩⟩ =
        linux_branch c6env "/dev/sde1" c6entry ⟨[], ⟨false, none⟩⟩ := by
  have h := C6_arch_failure_gates_fallback c6env c6envB "/dev/sde1" c6entry
    ⟨[], ⟨false, none⟩⟩ rfl rfl rfl rfl rfl rfl rfl
  exact ⟨h.1 rfl, h.2 ⟨rfl, by decide, by decide⟩⟩

/-- The OSRecord the Linux arm stores when name, architecture and package
manager are all resolved. -/
def linux_stored_record (ft : String → String → List String × String × String)
    (p : String) (cur : Bool) (mp : String) (n a pm : String) : OSRecord :=
  ⟨n, cur, a, p, pm, (ft mp n).1, (ft mp n).2.1, (ft mp n).2.2⟩

/-- The state after the Linux arm stores a record: the table gains the record
and, in the live-root case, `SYSTEM_INFO["CurrentOS"]` is snapshotted. -/
def store_result (st : ScanState) (cur : Bool) (n : String) (r : OSRecord) : ScanState :=
  if cur then ⟨dictInsert st.osInfo n r, { st.sysInfo with currentOS := some r }⟩
  else ⟨dictInsert st.osInfo n r, st.sysInfo⟩

theorem linux_store_cases (ft : String → String → List String × String × String)
    (p : String) (cur : Bool) (mp : String) (nm arch : Option String) (pm : String)
    (st : ScanState) :
    linux_store ft p cur mp nm arch pm st = st ∨
      ∃ n a, nm = some n ∧ arch = some a ∧ pm ≠ "Unknown" ∧
        linux_store ft p cur mp nm arch pm st =
          store_result st cur n (linux_stored_record ft p cur mp n a pm) := by
  cases nm with
  | none => exact Or.inl rfl
  | some n =>
    cases arch with
    | none => exact Or.inl rfl
    | some a =>
      by_cases hpm : pm = "Unknown"
      · left
        simp [linux_store, hpm]
      · right
        refine ⟨n, a, rfl, rfl, hpm, ?_⟩
        simp only [linux_store, if_pos hpm, store_result, linux_stored_record]

/-- One-step dichotomy of the Linux arm: either `SYSTEM_INFO` is untouched
and the table is unchanged or gains one non-current record with a resolved
package manager, or the partition owns the live root and a current record
was stored and snapshotted into `SYSTEM_INFO["CurrentOS"]`. -/
theorem linux_branch_cases (env : DetectEnv) (k : String) (d : DiskEntry) (st : ScanState) :
    (((linux_branch env k d st).1).sysInfo = st.sysInfo ∧
      (((linux_branch env k d st).1).osInfo = st.osInfo ∨
        ∃ nm r, r.packageManager ≠ "Unknown" ∧ r.isCurrentOS = false ∧ r.partition = k ∧
          ((linux_branch env k d st).1).osInfo = dictInsert st.osInfo nm r)) ∨
    (owns_root env k d = true ∧
      ∃ nm r, r.packageManager ≠ "Unknown" ∧ r.isCurrentOS = true ∧ r.partition = k ∧
        ((linux_branch env k d st).1).osInfo = dictInsert st.osInfo nm r ∧
        ((linux_branch env k d st).1).sysInfo = { st.sysInfo with currentOS := some r }) := by
  simp only [linux_branch]
  split
  · exact Or.inl ⟨rfl, Or.inl rfl⟩
  · rcases linux_store_cases env.getFSTabInfo k (owns_root env k d)
      (linux_mount_point env k d)
      (linux_resolved_name env k (owns_root env k d) (linux_mount_point env k d)
        (env.startProcess (linux_cmd env k d))
        (env.determineOSArchitecture (linux_mount_point env k d)))
      (env.determineOSArchitecture (linux_mount_point env k d))
      (env.determinePackageManager (linux_apt_cmd env k d) (linux_dnf_cmd env k d)) st with
      hst | ⟨n, a, hnm, harch, hpm, hst⟩
    · rw [hst]
      refine Or.inl ⟨?_, Or.inl ?_⟩ <;> simp [apply_ite Prod.fst]
    · rw [hst]
      by_cases hor : owns_root env k d = true
      · right
        refine ⟨hor, n, linux_stored_record env.getFSTabInfo k (owns_root env k d)
          (linux_mount_point env k d) n a
          (env.determinePackageManager (linux_apt_cmd env k d) (linux_dnf_cmd env k d)),
          ?_, ?_, ?_, ?_, ?_⟩
        · exact hpm
        · show owns_root env k d = true
          exact hor
        · rfl
        · simp [hor, store_result, apply_ite Prod.fst]
        · simp [hor, store_result, apply_ite Prod.fst]
      · left
        have hor' : owns_root env k d = false := by
          cases h : owns_root env k d
          · rfl
          · exact absurd h hor
        refine ⟨?_, Or.inr ⟨n, linux_stored_record env.getFSTabInfo k (owns_root env k d)
          (linux_mount_point env k d) n a
          (env.determinePackageManager (linux_apt_cmd env k d) (linux_dnf_cmd env k d)),
          ?_, ?_, ?_, ?_⟩⟩
        · simp [hor', store_result, apply_ite Prod.fst]
        · exact hpm
        · show owns_root env k d = false
          exact hor'
        · rfl
        · simp [hor', store_result, apply_ite Prod.fst]

theorem mac_branch_cases (env : DetectEnv) (k : String) (st : ScanState) :
    ((mac_branch env k st).1).sysInfo = st.sysInfo ∧
      (((mac_branch env k st).1).osInfo = st.osInfo ∨
        ((mac_branch env k st).1).osInfo =
          dictInsert st.osInfo ("Mac OS X (" ++ k ++ ")") (mac_os_record k)) := by
  simp only [mac_branch]
  constructor
  · split
    · rfl
    · split <;> (split <;> rfl)
  · split
    · exact Or.inl rfl
    · split <;>
        first
          | (split
             · exact Or.inr rfl
             · exact Or.inl rfl)

theorem windows_branch_cases (env : DetectEnv) (k : String) (st : ScanState) :
    ((windows_branch env k st).1).sysInfo = st.sysInfo ∧
      (((windows_branch env k st).1).osInfo = st.osInfo ∨
        ∃ nm, ((windows_branch env k st).1).osInfo =
          dictInsert st.osInfo nm (windows_record nm k)) := by
  simp only [windows_branch]
  constructor
  · split
    · rfl
    · split <;> (split <;> rfl)
  · split
    · exact Or.inl rfl
    · split <;>
        first
          | (split
             · exact Or.inr ⟨windows_base_name env (temp_mount env k).1 ++ " (" ++ k ++ ")", rfl⟩
             · exact Or.inl rfl)

/-- One-step dichotomy of the whole scan iteration: either `SYSTEM_INFO` is
untouched and the OS table unchanged or extended by one non-current record
with a resolved package manager, or the entry owns the live root and a
current record (rooted at the entry) was stored and snapshotted. -/
theorem scan_step_cases (env : DetectEnv) (p : String × DiskEntry) (st : ScanState) :
    (((scan_step env p st).1).sysInfo = st.sysInfo ∧
      (((scan_step env p st).1).osInfo = st.osInfo ∨
        ∃ nm r, r.packageManager ≠ "Unknown" ∧ r.isCurrentOS = false ∧
          ((scan_step env p st).1).osInfo = dictInsert st.osInfo nm r)) ∨
    (owns_root env p.1 p.2 = true ∧
      ∃ nm r, r.packageManager ≠ "Unknown" ∧ r.isCurrentOS = true ∧ r.partition = p.1 ∧
        ((scan_step env p st).1).osInfo = dictInsert st.osInfo nm r ∧
        ((scan_step env p st).1).sysInfo = { st.sysInfo with currentOS := some r }) := by
  unfold scan_step
  split
  · exact Or.inl ⟨rfl, Or.inl rfl⟩
  · split
    · obtain ⟨hs, ho⟩ := mac_branch_cases env p.1 st
      refine Or.inl ⟨hs, ?_⟩
      rcases ho with ho | ho
      · exact Or.inl ho
      · exact Or.inr ⟨_, mac_os_record p.1, by simp [mac_os_record], rfl, ho⟩
    · split
      · obtain ⟨hs, ho⟩ := windows_branch_cases env p.1 st
        refine Or.inl ⟨hs, ?_⟩
        rcases ho with ho | ⟨nm, ho⟩
        · exact Or.inl ho
        · exact Or.inr ⟨nm, windows_record nm p.1, by simp [windows_record], rfl, ho⟩
      · rcases linux_branch_cases env p.1 p.2 st with ⟨hs, ho⟩ | ⟨hor, nm, r, h1, h2, h3, h4, h5⟩
        · refine Or.inl ⟨hs, ?_⟩
          rcases ho with ho | ⟨nm, r, h1, h2, h3, h4⟩
          · exact Or.inl ho
          · exact Or.inr ⟨nm, r, h1, h2, h4⟩
        · exact Or.inr ⟨hor, nm, r, h1, h2, h3, h4, h5⟩

theorem scan_loop_cons (env : DetectEnv) (p : String × DiskEntry)
    (rest : List (String × DiskEntry)) (st : ScanState) :
    scan_loop env (p :: rest) st =
      if (scan_step env p st).2 = true then scan_loop env rest (scan_step env p st).1
      else (scan_step env p st).1 := by
  cases hs : scan_step env p st with
  | mk st' flag => cases flag <;> simp [scan_loop, hs]

theorem scan_step_mem (env : DetectEnv) (p : String × DiskEntry) (st : ScanState)
    (n : String) (r : OSRecord) (h : (n, r) ∈ ((scan_step env p st).1).osInfo) :
    (n, r) ∈ st.osInfo ∨ r.packageManager ≠ "Unknown" := by
  rcases scan_step_cases env p st with ⟨hsys, ho⟩ | ⟨hor, nm, rr, h1, h2, h3, h4, h5⟩
  · rcases ho with ho | ⟨nm, rr, h1, h2, h4⟩
    · rw [ho] at h
      exact Or.inl h
    · rw [h4] at h
      rcases mem_dictInsert _ _ _ _ _ h with he | he
      · right
        rw [show r = rr from congrArg Prod.snd he]
        exact h1
      · exact Or.inl he
  · rw [h4] at h
    rcases mem_dictInsert _ _ _ _ _ h with he | he
    · right
      rw [show r = rr from congrArg Prod.snd he]
      exact h1
    · exact Or.inl he

theorem scan_loop_pm (env : DetectEnv) (L : List (String × DiskEntry)) (st : ScanState)
    (n : String) (r : OSRecord) (h : (n, r) ∈ (scan_loop env L st).osInfo) :
    (n, r) ∈ st.osInfo ∨ r.packageManager ≠ "Unknown" := by
  induction L generalizing st with
  | nil => exact Or.inl h
  | cons p rest ih =>
    rw [scan_loop_cons] at h
    split at h
    · rcases ih _ h with hmem | hpm
      · exact scan_step_mem env p st n r hmem
      · exact Or.inr hpm
    · exact scan_step_mem env p st n r h

/-- C4 (amended): every OSRecord stored by a detection run started from an
empty OS table has a resolved (non-`"Unknown"`) package manager.  The
architecture field is not always resolved — the macOS and Windows arms store
`Arch = "Unknown"` by construction. -/
theorem C4_amended_package_manager_resolved (env : DetectEnv)
    (disks : List (String × DiskEntry)) (sys : SystemInfo) (n : String) (r : OSRecord)
    (h : (n, r) ∈ (scan_loop env (sortEntries disks) ⟨[], sys⟩).osInfo) :
    r.packageManager ≠ "Unknown" := by
  rcases scan_loop_pm env (sortEntries disks) ⟨[], sys⟩ n r h with hmem | hpm
  · exact absurd hmem (List.not_mem_nil _)
  · exact hpm

/-- Environment for the concrete macOS detection run: the partition mounts,
a Mac kernel marker is present, and nothing else resolves. -/
def c4env : DetectEnv :=
  ⟨"/dev/sda9", fun _ => false, fun _ => "", fun _ _ => 0, fun _ => 0, fun _ => true,
    fun _ => false, fun _ => false, fun _ => false, fun _ => false, fun _ => false,
    fun _ => false, fun _ => false, fun _ => (1, ""), fun _ => none, fun _ _ _ => none,
    fun _ _ => none, fun _ _ => "Unknown", fun _ _ => ([], "", "")⟩

/-- Inventory for the concrete macOS detection run. -/
def c4disks : List (String × DiskEntry) :=
  [("/dev/sda1", ⟨"Partition", "hfs", "77-77", "", []⟩)]

/-- Counterexample to C4: a detection run stores a macOS record whose `Arch`
field is the unresolved sentinel `"Unknown"` — stored records are not all
fully populated with a resolved architecture. -/
theorem C4_counterexample :
    get_oss c4env c4disks ⟨[], ⟨false, none⟩⟩ =
        some ([("Mac OS X (/dev/sda1)", mac_os_record "/dev/sda1")], ⟨false, none⟩) ∧
      (mac_os_record "/dev/sda1").arch = "Unknown" := by
  exact ⟨by decide, rfl⟩

/-- Witness for the amended C4: the concrete macOS run's stored record has a
resolved package manager. -/
theorem C4_amended_package_manager_resolved_witness :
    (mac_os_record "/dev/sda1").packageManager ≠ "Unknown" :=
  C4_amended_package_manager_resolved c4env c4disks ⟨false, none⟩ "Mac OS X (/dev/sda1)"
    (mac_os_record "/dev/sda1")
    (by
      have h : (scan_loop c4env (sortEntries c4disks) ⟨[], ⟨false, none⟩⟩).osInfo =
          [("Mac OS X (/dev/sda1)", mac_os_record "/dev/sda1")] := by decide
      rw [h]
      simp)

/-- Number of inventory entries that own the live root (equal to it or
carrying it among their aliases). -/
def root_owner_count (env : DetectEnv) (disks : List (String × DiskEntry)) : Nat :=
  (disks.filter fun p => owns_root env p.1 p.2).length

/-- Whether some inventory entry with the given device path owns the live
root. -/
def produced_by_owner (env : DetectEnv) (disks : List (String × DiskEntry))
    (p : String) : Bool :=
  disks.any fun q => decide (q.1 = p) && owns_root env q.1 q.2

/-- Invariant of the scan: any current-flagged record in the table is unique,
snapshotted in `SYSTEM_INFO["CurrentOS"]`, and rooted at a live-root-owning
inventory entry. -/
def CurrentInv (env : DetectEnv) (disks : List (String × DiskEntry)) (st : ScanState) :
    Prop :=
  ∀ n r, (n, r) ∈ st.osInfo → r.isCurrentOS = true →
    st.sysInfo.currentOS = some r ∧ produced_by_owner env disks r.partition = true ∧
      ∀ n2 r2, (n2, r2) ∈ st.osInfo → r2.isCurrentOS = true → n2 = n ∧ r2 = r

/-- No record of the table carries the current flag. -/
def NoCurrent (st : ScanState) : Prop :=
  ∀ n r, (n, r) ∈ st.osInfo → r.isCurrentOS = false

theorem scan_step_no_owner_preserves (env : DetectEnv) (p : String × DiskEntry)
    (st : ScanState) (h : owns_root env p.1 p.2 = false) :
    ((scan_step env p st).1).sysInfo = st.sysInfo ∧
      ∀ n r, (n, r) ∈ ((scan_step env p st).1).osInfo → r.isCurrentOS = true →
        (n, r) ∈ st.osInfo := by
  rcases scan_step_cases env p st with ⟨hsys, ho⟩ | ⟨hor, _⟩
  · refine ⟨hsys, ?_⟩
    intro n r hm hc
    rcases ho with ho | ⟨nm, rr, h1, h2, h4⟩
    · rw [ho] at hm
      exact hm
    · rw [h4] at hm
      rcases mem_dictInsert _ _ _ _ _ hm with he | he
      · exfalso
        rw [show r = rr from congrArg Prod.snd he, h2] at hc
        exact Bool.false_ne_true hc
      · exact he
  · rw [hor] at h
    exact absurd h (by simp)

theorem scan_loop_no_owner (env : DetectEnv) (disks : List (String × DiskEntry))
    (L : List (String × DiskEntry)) (st : ScanState)
    (hcnt : (L.filter fun p => owns_root env p.1 p.2).length = 0)
    (hinv : CurrentInv env disks st) :
    CurrentInv env disks (scan_loop env L st) := by
  induction L generalizing st with
  | nil => exact hinv
  | cons p rest ih =>
    have hp : owns_root env p.1 p.2 = false := by
      by_contra hx
      rw [List.filter_cons, if_pos (by simpa using hx)] at hcnt
      simp at hcnt
    have hrest : (rest.filter fun p => owns_root env p.1 p.2).length = 0 := by
      rw [List.filter_cons, if_neg (by simp [hp])] at hcnt
      exact hcnt
    obtain ⟨hsys, hmem⟩ := scan_step_no_owner_preserves env p st hp
    have hinv' : CurrentInv env disks (scan_step env p st).1 := by
      intro n r hm hc
      obtain ⟨h1, h2, h3⟩ := hinv n r (hmem n r hm hc) hc
      refine ⟨by rw [hsys]; exact h1, h2, ?_⟩
      intro n2 r2 hm2 hc2
      exact h3 n2 r2 (hmem n2 r2 hm2 hc2) hc2
    rw [scan_loop_cons]
    split
    · exact ih _ hrest hinv'
    · exact hinv'

theorem scan_loop_le_one_owner (env : DetectEnv) (disks : List (String × DiskEntry))
    (L : List (String × DiskEntry)) (st : ScanState)
    (hsub : ∀ p, p ∈ L → p ∈ disks)
    (hcnt : (L.filter fun p => owns_root env p.1 p.2).length ≤ 1)
    (hst : NoCurrent st) :
    CurrentInv env disks (scan_loop env L st) := by
  induction L generalizing st with
  | nil =>
    intro n r hm hc
    rw [hst n r hm] at hc
    exact absurd hc (by simp)
  | cons p rest ih =>
    rw [scan_loop_cons]
    by_cases hp : owns_root env p.1 p.2 = true
    · have hrest0 : (rest.filter fun q => owns_root env q.1 q.2).length = 0 := by
        rw [List.filter_cons, if_pos (by simpa using hp)] at hcnt
        simp only [List.length_cons] at hcnt
        omega
      rcases scan_step_cases env p st with ⟨hsys, ho⟩ | ⟨hor, nm, rr, h1, h2, h3, h4, h5⟩
      · have hst' : NoCurrent (scan_step env p st).1 := by
          intro n r hm
          rcases ho with ho | ⟨nm, rr, hh1, hh2, hh4⟩
          · rw [ho] at hm
            exact hst n r hm
          · rw [hh4] at hm
            rcases mem_dictInsert _ _ _ _ _ hm with he | he
            · rw [show r = rr from congrArg Prod.snd he]
              exact hh2
            · exact hst n r he
        have hvac : CurrentInv env disks (scan_step env p st).1 := by
          intro n r hm hc
          rw [hst' n r hm] at hc
          exact absurd hc (by simp)
        split
        · exact scan_loop_no_owner env disks rest _ hrest0 hvac
        · exact hvac
      · have hinv' : CurrentInv env disks (scan_step env p st).1 := by
          intro n r hm hc
          rw [h4] at hm
          rcases mem_dictInsert _ _ _ _ _ hm with he | he
          · have hr : r = rr := congrArg Prod.snd he
            refine ⟨?_, ?_, ?_⟩
            · rw [h5, hr]
            · rw [hr, h3]
              unfold produced_by_owner
              rw [List.any_eq_true]
              exact ⟨p, hsub p (List.mem_cons_self p rest), by rw [hp]; simp⟩
            · intro n2 r2 hm2 hc2
              rw [h4] at hm2
              rcases mem_dictInsert _ _ _ _ _ hm2 with he2 | he2
              · exact ⟨(congrArg Prod.fst he2).trans (congrArg Prod.fst he).symm,
                  (congrArg Prod.snd he2).trans (congrArg Prod.snd he).symm⟩
              · rw [hst n2 r2 he2] at hc2
                exact absurd hc2 (by simp)
          · rw [hst n r he] at hc
            exact absurd hc (by simp)
        split
        · exact scan_loop_no_owner env disks rest _ hrest0 hinv'
        · exact hinv'
    · have hp' : owns_root env p.1 p.2 = false := by
        cases h : owns_root env p.1 p.2
        · rfl
        · exact absurd h hp
      have hrest : (rest.filter fun q => owns_root env q.1 q.2).length ≤ 1 := by
        rw [List.filter_cons, if_neg (by simp [hp'])] at hcnt
        exact hcnt
      obtain ⟨hsys, hmem⟩ := scan_step_no_owner_preserves env p st hp'
      have hst' : NoCurrent (scan_step env p st).1 := by
        intro n r hm
        cases hc : r.isCurrentOS
        · rfl
        · rw [hst n r (hmem n r hm hc)] at hc
          exact absurd hc (by simp)
      split
      · exact ih _ (fun q hq => hsub q (List.mem_cons_of_mem p hq)) hrest hst'
      · intro n r hm hc
        rw [hst' n r hm] at hc
        exact absurd hc (by simp)

/-- C5 (amended): in a detection run started from an empty OS table over an
inventory in which at most one entry owns the live root (equals it or lists
it among its aliases), at most one stored OSRecord has `IsCurrentOS = true`;
such a record is rooted at a live-root-owning entry, and it is snapshotted
into `SYSTEM_INFO["CurrentOS"]`. -/
theorem C5_amended_current_os_unique (env : DetectEnv)
    (disks : List (String × DiskEntry)) (sys : SystemInfo)
    (n : String) (r : OSRecord) (n2 : String) (r2 : OSRecord)
    (hcnt : root_owner_count env disks ≤ 1)
    (hmem : (n, r) ∈ (scan_loop env (sortEntries disks) ⟨[], sys⟩).osInfo)
    (hcur : r.isCurrentOS = true)
    (hmem2 : (n2, r2) ∈ (scan_loop env (sortEntries disks) ⟨[], sys⟩).osInfo)
    (hcur2 : r2.isCurrentOS = true) :
    (n2 = n ∧ r2 = r) ∧
      (scan_loop env (sortEntries disks) ⟨[], sys⟩).sysInfo.currentOS = some r ∧
      produced_by_owner env disks r.partition = true := by
  have hsub : ∀ p, p ∈ sortEntries disks → p ∈ disks :=
    fun p hp => (mem_sortEntries p disks).mp hp
  have hcnt' : ((sortEntries disks).filter fun p => owns_root env p.1 p.2).length ≤ 1 := by
    rw [((sortEntries_perm disks).filter _).length_eq]
    exact hcnt
  have hst : NoCurrent (⟨[], sys⟩ : ScanState) :=
    fun n r hm => absurd hm (List.not_mem_nil _)
  have hinv := scan_loop_le_one_owner env disks (sortEntries disks) ⟨[], sys⟩ hsub hcnt' hst
  obtain ⟨h1, h2, h3⟩ := hinv n r hmem hcur
  exact ⟨h3 n2 r2 hmem2 hcur2, h1, h2⟩

/-- Environment for the two-alias-owner counterexample run: the distro probe
fails, the architecture resolves, and the lsb fallback names the OS after the
partition being probed. -/
def c5env : DetectEnv :=
  ⟨"/dev/mapper/root", fun _ => false, fun _ => "", fun _ _ => 1, fun _ => 0,
    fun _ => false, fun _ => false, fun _ => false, fun _ => false, fun _ => false,
    fun _ => false, fun _ => false, fun _ => false, fun _ => (1, ""),
    fun _ => some "x86_64", fun part _ _ => some ("OS " ++ part), fun _ _ => none,
    fun _ _ => "apt-get", fun _ _ => (["Unknown"], "Unknown", "Unknown")⟩

/-- Inventory for the counterexample run: two distinct partitions that both
carry the live root among their aliases. -/
def c5disks : List (String × DiskEntry) :=
  [("/dev/dm-1", ⟨"Partition", "ext4", "", "", ["/dev/mapper/root"]⟩),
   ("/dev/dm-2", ⟨"Partition", "ext4", "", "", ["/dev/mapper/root"]⟩)]

/-- The record the counterexample run stores for `/dev/dm-1`. -/
def c5rec1 : OSRecord :=
  ⟨"OS /dev/dm-1", true, "x86_64", "/dev/dm-1", "apt-get", ["Unknown"], "Unknown", "Unknown"⟩

/-- The record the counterexample run stores for `/dev/dm-2`. -/
def c5rec2 : OSRecord :=
  ⟨"OS /dev/dm-2", true, "x86_64", "/dev/dm-2", "apt-get", ["Unknown"], "Unknown", "Unknown"⟩

/-- Counterexample to C5: when two inventory entries both alias the live
root, the run stores two distinct OSRecords that both have
`IsCurrentOS = true` (the second also overwrites the `CurrentOS` snapshot) —
the at-most-one invariant fails on such inventories. -/
theorem C5_counterexample :
    get_oss c5env c5disks ⟨[], ⟨false, none⟩⟩ =
        some ([("OS /dev/dm-1", c5rec1), ("OS /dev/dm-2", c5rec2)], ⟨false, some c5rec2⟩) ∧
      c5rec1.isCurrentOS = true ∧ c5rec2.isCurrentOS = true ∧
      ("OS /dev/dm-1" : String) ≠ "OS /dev/dm-2" := by
  exact ⟨by decide, rfl, rfl, by decide⟩

/-- Environment for the single-owner current-OS run: the live root partition
resolves its name, architecture and package manager directly. -/
def c5wenv : DetectEnv :=
  ⟨"/dev/sda2", fun _ => false, fun _ => "", fun _ _ => 1, fun _ => 0,
    fun _ => false, fun _ => false, fun _ => false, fun _ => false, fun _ => false,
    fun _ => false, fun _ => false, fun _ => false, fun _ => (0, "Ubuntu 20.04"),
    fun _ => some "x86_64", fun _ _ _ => none, fun _ _ => none,
    fun _ _ => "apt-get", fun _ _ => (["entry"], "Unknown", "Unknown")⟩

/-- Inventory for the single-owner current-OS run. -/
def c5wdisks : List (String × DiskEntry) :=
  [("/dev/sda2", ⟨"Partition", "ext4", "88-88", "", []⟩)]

/-- The record the single-owner run stores for the live root. -/
def c5wrec : OSRecord :=
  ⟨"Ubuntu 20.04", true, "x86_64", "/dev/sda2", "apt-get", ["entry"], "Unknown", "Unknown"⟩

/-- Witness for the amended C5: in the single-owner run the stored current
record is unique, snapshotted into `SYSTEM_INFO["CurrentOS"]`, and rooted at
the live-root-owning entry. -/
theorem C5_amended_current_os_unique_witness :
    (("Ubuntu 20.04" : String) = "Ubuntu 20.04" ∧ c5wrec = c5wrec) ∧
      (scan_loop c5wenv (sortEntries c5wdisks) ⟨[], ⟨false, none⟩⟩).sysInfo.currentOS =
        some c5wrec ∧
      produced_by_owner c5wenv c5wdisks c5wrec.partition = true := by
  have h : (scan_loop c5wenv (sortEntries c5wdisks) ⟨[], ⟨false, none⟩⟩).osInfo =
      [("Ubuntu 20.04", c5wrec)] := by decide
  exact C5_amended_current_os_unique c5wenv c5wdisks ⟨false, none⟩ "Ubuntu 20.04" c5wrec
    "Ubuntu 20.04" c5wrec (by decide) (by rw [h]; simp) rfl (by rw [h]; simp) rfl

end WxFixBoot
